import Mathlib

/-!
Verification development for the NewBlueFX Titler Live integration module
(src/index.js).  The definitions below are a shallow embedding of the
feedback-cache pipeline: the fingerprint function
`makeCacheKeyUsingOptions`, the play-state resolution step inside
`queryFeedbackState`, the post-processing in `queryFeedbackDetails`, the
host-facing `feedback` evaluation, the miss-queue drain
`rebuildFeedbackCache`, and the reconnect watchdog of `initQWebChannel`.
Machine integers are modelled as `Nat` with explicit reduction modulo
`2 ^ 32` / `2 ^ 64` where the original arithmetic wraps.
-/

namespace Titler

/-- Rotate a 32-bit word (a `Nat` below `2 ^ 32`) left by `n` bits. -/
def rotl32 (x n : Nat) : Nat :=
  (((x <<< n) % 4294967296) ||| (x >>> (32 - n)))

/-- The 64 MD5 round constants `K[i] = floor(abs(sin(i+1)) * 2^32)` (RFC 1321). -/
def md5K : List Nat :=
  [0xd76aa478, 0xe8c7b756, 0x242070db, 0xc1bdceee,
   0xf57c0faf, 0x4787c62a, 0xa8304613, 0xfd469501,
   0x698098d8, 0x8b44f7af, 0xffff5bb1, 0x895cd7be,
   0x6b901122, 0xfd987193, 0xa679438e, 0x49b40821,
   0xf61e2562, 0xc040b340, 0x265e5a51, 0xe9b6c7aa,
   0xd62f105d, 0x02441453, 0xd8a1e681, 0xe7d3fbc8,
   0x21e1cde6, 0xc33707d6, 0xf4d50d87, 0x455a14ed,
   0xa9e3e905, 0xfcefa3f8, 0x676f02d9, 0x8d2a4c8a,
   0xfffa3942, 0x8771f681, 0x6d9d6122, 0xfde5380c,
   0xa4beea44, 0x4bdecfa9, 0xf6bb4b60, 0xbebfbc70,
   0x289b7ec6, 0xeaa127fa, 0xd4ef3085, 0x04881d05,
   0xd9d4d039, 0xe6db99e5, 0x1fa27cf8, 0xc4ac5665,
   0xf4292244, 0x432aff97, 0xab9423a7, 0xfc93a039,
   0x655b59c3, 0x8f0ccc92, 0xffeff47d, 0x85845dd1,
   0x6fa87e4f, 0xfe2ce6e0, 0xa3014314, 0x4e0811a1,
   0xf7537e82, 0xbd3af235, 0x2ad7d2bb, 0xeb86d391]

/-- The 64 MD5 per-round left-rotation amounts (RFC 1321). -/
def md5S : List Nat :=
  [7, 12, 17, 22, 7, 12, 17, 22, 7, 12, 17, 22, 7, 12, 17, 22,
   5, 9, 14, 20, 5, 9, 14, 20, 5, 9, 14, 20, 5, 9, 14, 20,
   4, 11, 16, 23, 4, 11, 16, 23, 4, 11, 16, 23, 4, 11, 16, 23,
   6, 10, 15, 21, 6, 10, 15, 21, 6, 10, 15, 21, 6, 10, 15, 21]

/-- The MD5 nonlinear function and message-word index for round `i`. -/
def md5FG (i b c d : Nat) : Nat × Nat :=
  if i < 16 then ((b &&& c) ||| ((b ^^^ 0xffffffff) &&& d), i)
  else if i < 32 then ((d &&& b) ||| ((d ^^^ 0xffffffff) &&& c), (5 * i + 1) % 16)
  else if i < 48 then (b ^^^ c ^^^ d, (3 * i + 5) % 16)
  else (c ^^^ (b ||| (d ^^^ 0xffffffff)), (7 * i) % 16)

/-- Running MD5 state: four 32-bit words. -/
structure MD5State where
  a : Nat
  b : Nat
  c : Nat
  d : Nat
deriving DecidableEq, Repr

/-- Assemble a little-endian 32-bit word from four consecutive bytes of `chunk`. -/
def md5Word (chunk : List Nat) (g : Nat) : Nat :=
  chunk.getD (4 * g) 0 + chunk.getD (4 * g + 1) 0 * 256 +
    chunk.getD (4 * g + 2) 0 * 65536 + chunk.getD (4 * g + 3) 0 * 16777216

/-- One MD5 round on a 64-byte chunk. -/
def md5Round (chunk : List Nat) (st : MD5State) (i : Nat) : MD5State :=
  let fg := md5FG i st.b st.c st.d
  let f := (fg.1 + st.a + md5K.getD i 0 + md5Word chunk fg.2) % 4294967296
  { a := st.d, b := (st.b + rotl32 f (md5S.getD i 0)) % 4294967296, c := st.b, d := st.c }

/-- Process one 64-byte chunk: 64 rounds, then add into the running state mod `2 ^ 32`. -/
def md5Chunk (st : MD5State) (chunk : List Nat) : MD5State :=
  let r := (List.range 64).foldl (md5Round chunk) st
  { a := (st.a + r.a) % 4294967296, b := (st.b + r.b) % 4294967296,
    c := (st.c + r.c) % 4294967296, d := (st.d + r.d) % 4294967296 }

/-- Structural worker for `md5Chunks`: the fuel bounds the number of 64-byte
chunks still to process and is always sufficient when set to the byte count. -/
def md5ChunksGo : Nat → MD5State → List Nat → MD5State
  | 0, st, _ => st
  | fuel + 1, st, l =>
    if l = [] then st
    else md5ChunksGo fuel (md5Chunk st (l.take 64)) (l.drop 64)

/-- Fold the MD5 compression function over the padded message, 64 bytes at a time. -/
def md5Chunks (st : MD5State) (l : List Nat) : MD5State :=
  md5ChunksGo l.length st l

/-- MD5 padding: append `0x80`, zero bytes up to 56 mod 64, then the 64-bit
little-endian bit length. -/
def md5Pad (msg : List Nat) : List Nat :=
  let len := msg.length
  let z := (120 - ((len + 1) % 64)) % 64
  let bitLen := (8 * len) % 18446744073709551616
  msg ++ [0x80] ++ List.replicate z 0 ++
    ((List.range 8).map (fun i => (bitLen >>> (8 * i)) % 256))

/-- The 16-byte MD5 digest of a byte sequence. -/
def md5Bytes (msg : List Nat) : List Nat :=
  let st := md5Chunks ⟨0x67452301, 0xefcdab89, 0x98badcfe, 0x10325476⟩ (md5Pad msg)
  ([st.a, st.b, st.c, st.d]).flatMap (fun w => (List.range 4).map (fun i => (w >>> (8 * i)) % 256))

/-- Lowercase hexadecimal digit for a value below 16. -/
def hexDigit (n : Nat) : Char :=
  ("0123456789abcdef".data).getD n '0'

/-- Two lowercase hex digits for one byte. -/
def byteToHex (b : Nat) : String :=
  String.mk [hexDigit (b / 16), hexDigit (b % 16)]

/-- Lowercase hex rendering of the MD5 digest, as produced by
`crypto.createHash('md5').update(s).digest('hex')`. -/
def md5Hex (msg : List Nat) : String :=
  String.join ((md5Bytes msg).map byteToHex)

/-- Byte sequence of a string.  The strings hashed by this module (JSON
renderings of option objects with ASCII keys and values) are ASCII, where
UTF-8 bytes coincide with code points. -/
def strBytes (s : String) : List Nat :=
  s.data.map Char.toNat

/-- An option object, as an insertion-ordered list of key/value pairs
(JavaScript objects preserve string-key insertion order). -/
abbrev Opts := List (String × String)

/-- Rendering of the members of an option object, in insertion order, as
produced by `JSON.stringify` on an object of string values. -/
def jsonMembers : Opts → String
  | [] => ""
  | [(k, v)] => "\"" ++ k ++ "\":\"" ++ v ++ "\""
  | (k, v) :: rest => "\"" ++ k ++ "\":\"" ++ v ++ "\"," ++ jsonMembers rest

/-- Model of `JSON.stringify(vals)` for an option object whose values are
strings that need no escaping: members in insertion order between braces. -/
def jsonStringify (opts : Opts) : String :=
  "\x7b" ++ jsonMembers opts ++ "\x7d"

/-- Embedding of `makeCacheKeyUsingOptions` (src/index.js lines 43-56): the
key itself when the option object is empty, otherwise the key, a `+`, and
the hex MD5 of the JSON rendering of the options. -/
def makeCacheKeyUsingOptions (key : String) (options : Opts) : String :=
  if options.length ≠ 0 then
    key ++ "+" ++ md5Hex (strBytes (jsonStringify options))
  else
    key

/-- First-match lookup in an association list, modelling JavaScript property
access `obj[k]` (`none` plays the role of `undefined`). -/
def lookupKV {α : Type} : List (String × α) → String → Option α
  | [], _ => none
  | (k2, v) :: rest, k => if k2 = k then some v else lookupKV rest k

/-- A resolved feedback state.  JavaScript objects are dynamic; this structure
carries exactly the fields the module reads or writes, with `none` standing
for an absent property. -/
structure FeedbackState where
  overlayQueryKey : Option String := none
  overlayImageName : Option String := none
  overlayImageName_running : Option String := none
  overlayImageName_paused : Option String := none
  pngQueryKey : Option String := none
  png : Option String := none
  png_running : Option String := none
  png_paused : Option String := none
  png64 : Option String := none
  imageName : Option String := none
  layerImageName : Option String := none
deriving DecidableEq, Repr

/-- One record of the `newblue.automation.layerstate` key/value reply; the
`playState` property may be missing. -/
structure PlayRecord where
  playState : Option String := none
deriving DecidableEq, Repr

/-- The layer play-state mapping returned by
`scheduler.getValueForKey("newblue.automation.layerstate", ...)`. -/
abbrev PlayStates := List (String × PlayRecord)

/-- Play state looked up for a query key, as computed at src/index.js lines
233-238 and 259-263: the record's `playState` when a record with that
property exists, otherwise the substitute value `"unknown"`. -/
def getPlayStateFor (playStates : PlayStates) (k : String) : String :=
  match lookupKV playStates k with
  | none => "unknown"
  | some r =>
    match r.playState with
    | none => "unknown"
    | some ps => ps

/-- Embedding of the `overlayQueryKey` branch of `queryFeedbackState`
(src/index.js lines 232-256): select `overlayImageName` from the
`_running` / `_paused` variant matching the play state, delete both
variants, delete the query key. -/
def resolveOverlay (playStates : PlayStates) (value : FeedbackState) : FeedbackState :=
  match value.overlayQueryKey with
  | none => value
  | some k =>
    let ps := getPlayStateFor playStates k
    let value :=
      match value.overlayImageName_running with
      | none => value
      | some v =>
        { value with
          overlayImageName := if ps = "running" then some v else value.overlayImageName,
          overlayImageName_running := none }
    let value :=
      match value.overlayImageName_paused with
      | none => value
      | some v =>
        { value with
          overlayImageName := if ps = "paused" then some v else value.overlayImageName,
          overlayImageName_paused := none }
    { value with overlayQueryKey := none }

/-- Embedding of the `pngQueryKey` branch of `queryFeedbackState`
(src/index.js lines 258-283).  In the `png_running` case the source executes
`value.png_running = value.png_running` — an assignment of the field to
itself rather than to `value.png` — before deleting the field, so only the
deletion is observable; the `png_paused` case assigns `value.png`. -/
def resolvePng (playStates : PlayStates) (value : FeedbackState) : FeedbackState :=
  match value.pngQueryKey with
  | none => value
  | some k =>
    let ps := getPlayStateFor playStates k
    let value :=
      match value.png_running with
      | none => value
      | some _ => { value with png_running := none }
    let value :=
      match value.png_paused with
      | none => value
      | some v =>
        { value with
          png := if ps = "paused" then some v else value.png,
          png_paused := none }
    { value with pngQueryKey := none }

/-- The state-resolution step of `queryFeedbackState` (src/index.js lines
227-284): fold layer play states into the parsed reply, overlay branch then
png branch. -/
def queryFeedbackStateResolve (playStates : PlayStates) (value : FeedbackState) :
    FeedbackState :=
  resolvePng playStates (resolveOverlay playStates value)

/-- Outcome of one step of the compositing pipeline run by `sharp` in
`queryFeedbackDetails` (decode the base and overlay payloads, alpha-composite
with the overlay tiled over the base, re-encode to base64). The pipeline is
an external library call; it is passed as an oracle returning `some` of the
re-encoded payload on success and `none` on any failure, which the source
handles in the promise's `catch` branch. -/
abbrev CompositeFn := String → String → Option String

/-- Embedding of the post-processing of a resolved state in
`queryFeedbackDetails` (src/index.js lines 307-340), given the image set and
the compositing oracle.  The source deletes `state.layerImageName` inside the
overlay branch; when the overlay branch has a base `png64` and compositing
fails, the `catch` handler resolves with the state unchanged; when the state
has no `png64`, the source assigns `this.layerImageData`, a property that is
never set (the local variable is `layerImageData`), i.e. `undefined`. -/
def queryFeedbackDetailsProcess (images : List (String × String))
    (composite : CompositeFn) (state : FeedbackState) : Except String FeedbackState :=
  match state.overlayImageName with
  | some overlayName =>
    let state := { state with layerImageName := none }
    match lookupKV images overlayName with
    | none => Except.ok state
    | some layerImageData =>
      match state.png64 with
      | some base =>
        match composite base layerImageData with
        | some buffer => Except.ok { state with png64 := some buffer }
        | none => Except.ok state
      | none => Except.ok { state with png64 := none }
  | none =>
    match state.imageName with
    | some nm => Except.ok { state with png64 := lookupKV images nm, imageName := none }
    | none => Except.ok state

/-- Model of JavaScript `s.split(sep)` for a single-character separator:
groups of characters between occurrences of the separator, so that
`"a~b"` splits to `["a", "b"]` and a string with no separator splits to the
one-element list holding the whole string. -/
def splitChar (sep : Char) (s : String) : List String :=
  (s.data.foldr
    (fun c acc =>
      match acc with
      | cur :: rest => if c = sep then [] :: cur :: rest else (c :: cur) :: rest
      | [] => [[c]])
    [[]]).map String.mk

/-- One recorded cache miss, as pushed onto `this.cacheMisses`. -/
structure Miss where
  id : String
  options : Opts
deriving DecidableEq, Repr

/-- Instance-plus-module state touched by feedback evaluation and the cache
rebuilder.  `cacheBuilderInstance` models the property `this.cacheBuilder`
and `cacheBuilderModule` the module-level variable `cacheBuilder`; `timers`
holds the ids of armed interval timers and `nextTimerId` the next fresh id. -/
structure InstState where
  localFeedbackCache : List (String × FeedbackState) := []
  pendingFeedbackChanges : List String := []
  cacheMisses : List Miss := []
  images : List (String × String) := []
  cacheBuilderInstance : Option Nat := none
  cacheBuilderModule : Option Nat := none
  timers : List Nat := []
  nextTimerId : Nat := 0
deriving DecidableEq, Repr

/-- Embedding of the `imageName` post-processing on a cache hit
(src/index.js lines 521-532): copy the entry, delete `imageName`, and set
`png64` from the image set when the named image exists. -/
def processImageName (images : List (String × String)) (result : FeedbackState) :
    FeedbackState :=
  match result.imageName with
  | some nm =>
    let processedResult := { result with imageName := none }
    match lookupKV images nm with
    | some imageData => { processedResult with png64 := some imageData }
    | none => processedResult
  | none => result

/-- Embedding of the tick-arming tail of `feedback` (src/index.js lines
545-560).  When misses are queued: `clearTimeout(this.cacheBuilder)` runs
only if the instance property is set (it never is in the source), and a new
interval is assigned to the module-level `cacheBuilder` variable without
clearing any interval previously stored there. -/
def armCacheBuilder (st : InstState) : InstState :=
  if st.cacheMisses.length > 0 then
    let st1 :=
      match st.cacheBuilderInstance with
      | some tid => { st with timers := st.timers.erase tid, cacheBuilderInstance := none }
      | none => st
    { st1 with
      cacheBuilderModule := some st1.nextTimerId,
      timers := st1.nextTimerId :: st1.timers,
      nextTimerId := st1.nextTimerId + 1 }
  else st

/-- Embedding of `feedback(event)` (src/index.js lines 501-563): look the
fingerprint up in the local cache; on a hit, post-process `imageName` and
re-enqueue a miss when a stale marker is pending for the event type; on a
miss, enqueue the miss and return `undefined` (`none`); finally arm the
rebuild interval when misses are queued. -/
def feedback (st : InstState) (eventType : String) (options : Opts) :
    Option FeedbackState × InstState :=
  let cacheKey := makeCacheKeyUsingOptions eventType options
  match lookupKV st.localFeedbackCache cacheKey with
  | some result =>
    let processed := processImageName st.images result
    let st1 :=
      if eventType ∈ st.pendingFeedbackChanges then
        { st with cacheMisses := st.cacheMisses ++ [⟨eventType, options⟩] }
      else st
    (some processed, armCacheBuilder st1)
  | none =>
    let st1 := { st with cacheMisses := st.cacheMisses ++ [⟨eventType, options⟩] }
    (none, armCacheBuilder st1)

/-- Detail-query oracle used by the rebuilder: the settled outcome of
`queryFeedbackDetails(actorId, feedbackId, options)`, with `none` for a
rejected promise. -/
abbrev QueryFn := String → String → Opts → Option FeedbackState

/-- A remote detail query issued by the rebuilder, recorded as
(actorId, feedbackId, options). -/
abbrev Query := String × String × Opts

/-- Embedding of the `while` loop of `rebuildFeedbackCache` (src/index.js
lines 440-475), processing misses in pop order (most recently pushed first).
The source's guard `if (!miss.id === undefined) continue;` compares a
boolean with `undefined` and is therefore never taken, so it is omitted.
For each miss: delete its pending-change marker; split the id on `~`; when
there are at least two components, issue the detail query and, on success,
write the reply into the cache under the fingerprint of the rebuilt
`actorId~feedbackId` key with the miss's options — a failed query writes
nothing; with fewer than two components no query is issued.  The returned
triple is (cache, pending markers, queries issued). -/
def rebuildLoop (query : QueryFn) :
    List Miss → List (String × FeedbackState) → List String → List Query →
      List (String × FeedbackState) × List String × List Query
  | [], cache, pending, queries => (cache, pending, queries)
  | m :: rest, cache, pending, queries =>
    let pending := pending.filter (fun k => k ≠ m.id)
    let components := splitChar '~' m.id
    if components.length ≥ 2 then
      let actorId := components.getD 0 ""
      let feedbackId := components.getD 1 ""
      match query actorId feedbackId m.options with
      | some reply =>
        let feedbackKey := actorId ++ "~" ++ feedbackId
        let cacheKey := makeCacheKeyUsingOptions feedbackKey m.options
        rebuildLoop query rest ((cacheKey, reply) :: cache) pending
          (queries ++ [(actorId, feedbackId, m.options)])
      | none =>
        rebuildLoop query rest cache pending (queries ++ [(actorId, feedbackId, m.options)])
    else
      rebuildLoop query rest cache pending queries

/-- Embedding of `rebuildFeedbackCache` (src/index.js lines 434-488): drain
the miss queue through `rebuildLoop`, then run the cleanup tail
`if (this.cacheBuilder) { delete this.cacheBuilder; this.cacheBuilder = undefined }` —
which deletes the instance property but never calls `clearInterval`, so no
timer leaves the armed set.  Returns the new state and the queries issued. -/
def rebuildFeedbackCache (query : QueryFn) (st : InstState) : InstState × List Query :=
  let r := rebuildLoop query st.cacheMisses.reverse st.localFeedbackCache
    st.pendingFeedbackChanges []
  let st := { st with
    localFeedbackCache := r.1,
    pendingFeedbackChanges := r.2.1,
    cacheMisses := [] }
  let st :=
    match st.cacheBuilderInstance with
    | some _ => { st with cacheBuilderInstance := none }
    | none => st
  (st, r.2.2)

/-- Connection-lifecycle state of `initQWebChannel`: the module-level
`connectionWatchdog` variable, the set of armed reconnect-interval timer ids,
and the next fresh timer id. -/
structure ConnState where
  watchdog : Option Nat := none
  timers : List Nat := []
  nextId : Nat := 0
deriving DecidableEq, Repr

/-- Embedding of the socket `close` handler (src/index.js lines 375-389): a
5-second reconnect interval is armed and stored in `connectionWatchdog` only
when no watchdog is currently stored. -/
def onSocketClose (s : ConnState) : ConnState :=
  match s.watchdog with
  | none =>
    { watchdog := some s.nextId, timers := s.nextId :: s.timers, nextId := s.nextId + 1 }
  | some _ => s

/-- Embedding of the socket `open` handler's watchdog cleanup (src/index.js
lines 153-158): when a watchdog is stored, clear its timer and reset the
variable to `undefined`. -/
def onSocketOpen (s : ConnState) : ConnState :=
  match s.watchdog with
  | some tid => { s with watchdog := none, timers := s.timers.erase tid }
  | none => s

/-- A connection-lifecycle event observed by `initQWebChannel`. -/
inductive ConnEvent where
  | sockOpen : ConnEvent
  | sockClose : ConnEvent
deriving DecidableEq, Repr

/-- Dispatch one connection-lifecycle event. -/
def connStep (s : ConnState) : ConnEvent → ConnState
  | ConnEvent.sockOpen => onSocketOpen s
  | ConnEvent.sockClose => onSocketClose s

/-- Run a sequence of connection-lifecycle events. -/
def connRun (evs : List ConnEvent) (s : ConnState) : ConnState :=
  evs.foldl connStep s

/-- Initial connection-lifecycle state: `connectionWatchdog` is `undefined`
and no timer is armed. -/
def connInit : ConnState := {}

/-- Watchdog invariant: the armed reconnect timers are exactly the one stored
in `connectionWatchdog`, when any. -/
def connInv (s : ConnState) : Prop :=
  match s.watchdog with
  | none => s.timers = []
  | some tid => s.timers = [tid]

end Titler

namespace Titler

set_option maxRecDepth 40000 in
/-- C2 counterexample: two option objects holding the same key/value pairs
inserted in different orders produce different fingerprints, because the
hash input `JSON.stringify(vals)` serializes members in insertion order. -/
theorem makeCacheKey_insertion_order_counterexample :
    makeCacheKeyUsingOptions "key" [("a", "1"), ("b", "2")] ≠
      makeCacheKeyUsingOptions "key" [("b", "2"), ("a", "1")] := by
  decide

/-- C2 (amended): the fingerprint function returns the same cache key for two
option objects holding the same key/value pairs in the same insertion order;
with different insertion orders the fingerprints can differ. -/
theorem makeCacheKey_equal_option_lists (key : String) (o1 o2 : Opts) (h : o1 = o2) :
    makeCacheKeyUsingOptions key o1 = makeCacheKeyUsingOptions key o2 := by
  rw [h]

/-- Witness for `makeCacheKey_equal_option_lists` at a concrete key and
option list. -/
theorem makeCacheKey_equal_option_lists_witness :
    ([("a", "1")] : Opts) = [("a", "1")] ∧
      makeCacheKeyUsingOptions "key" [("a", "1")] =
        makeCacheKeyUsingOptions "key" [("a", "1")] :=
  ⟨rfl, makeCacheKey_equal_option_lists "key" [("a", "1")] [("a", "1")] rfl⟩

/-- C3: the fingerprint of a key with an empty option object is the key
itself, with no hash suffix appended. -/
theorem makeCacheKey_empty_options (key : String) :
    makeCacheKeyUsingOptions key [] = key := by
  simp [makeCacheKeyUsingOptions]

/-- Arming the rebuild interval does not touch the miss queue. -/
theorem armCacheBuilder_cacheMisses (st : InstState) :
    (armCacheBuilder st).cacheMisses = st.cacheMisses := by
  unfold armCacheBuilder
  split
  · split <;> rfl
  · rfl

/-- C1: when a stale marker is pending for identity `i` (set by the
feedback-changed push handler), evaluating a feedback of type `i` with any
options appends the miss `(i, options)` to the miss queue, and if a cache
entry exists for the fingerprint the cached value is still returned. -/
theorem feedback_stale_marker_enqueues_miss (st : InstState) (i : String) (o : Opts)
    (h : i ∈ st.pendingFeedbackChanges) :
    ((feedback st i o).2).cacheMisses = st.cacheMisses ++ [⟨i, o⟩] ∧
    (∀ r, lookupKV st.localFeedbackCache (makeCacheKeyUsingOptions i o) = some r →
      (feedback st i o).1 = some (processImageName st.images r)) := by
  cases hl : lookupKV st.localFeedbackCache (makeCacheKeyUsingOptions i o) with
  | none =>
    refine ⟨?_, ?_⟩
    · simp [feedback, hl, armCacheBuilder_cacheMisses]
    · intro r hr
      cases hr
  | some result =>
    refine ⟨?_, ?_⟩
    · simp [feedback, hl, armCacheBuilder_cacheMisses, h]
    · intro r hr
      cases hr
      simp [feedback, hl]

/-- Concrete cached entry used by the C1 witness. -/
def c1CacheEntry : FeedbackState := { png64 := some "AAA" }

/-- Concrete instance state used by the C1 witness: a cache entry exists for
the fingerprint of `x~y` with empty options and a stale marker is pending
for `x~y`. -/
def c1State : InstState :=
  { localFeedbackCache := [("x~y", c1CacheEntry)],
    pendingFeedbackChanges := ["x~y"] }

/-- Witness for `feedback_stale_marker_enqueues_miss` at a concrete state
with both a cache entry and a stale marker for the identity. -/
theorem feedback_stale_marker_enqueues_miss_witness :
    "x~y" ∈ c1State.pendingFeedbackChanges ∧
      (((feedback c1State "x~y" []).2).cacheMisses =
          c1State.cacheMisses ++ [⟨"x~y", []⟩] ∧
        (∀ r, lookupKV c1State.localFeedbackCache
            (makeCacheKeyUsingOptions "x~y" []) = some r →
          (feedback c1State "x~y" []).1 = some (processImageName c1State.images r))) :=
  ⟨by decide, feedback_stale_marker_enqueues_miss c1State "x~y" [] (by decide)⟩

/-- A play-state query key that resolves to no record, or to a record
without a `playState` property, yields the substitute play state. -/
theorem getPlayStateFor_unknown (playStates : PlayStates) (k : String)
    (h : lookupKV playStates k = none ∨ lookupKV playStates k = some ⟨none⟩) :
    getPlayStateFor playStates k = "unknown" := by
  rcases h with h | h <;> simp [getPlayStateFor, h]

/-- The overlay branch does not touch the png-related fields. -/
theorem resolveOverlay_png_fields (ps : PlayStates) (v : FeedbackState) :
    (resolveOverlay ps v).pngQueryKey = v.pngQueryKey ∧
    (resolveOverlay ps v).png = v.png ∧
    (resolveOverlay ps v).png_running = v.png_running ∧
    (resolveOverlay ps v).png_paused = v.png_paused := by
  obtain ⟨oqk, oin, oirun, oipse, pqk, pg, pgrun, pgpse, p64, imn, lin⟩ := v
  cases oqk <;> cases oirun <;> cases oipse <;> simp [resolveOverlay]

/-- The png branch does not touch the overlay-related fields. -/
theorem resolvePng_overlay_fields (ps : PlayStates) (v : FeedbackState) :
    (resolvePng ps v).overlayImageName = v.overlayImageName ∧
    (resolvePng ps v).overlayImageName_running = v.overlayImageName_running ∧
    (resolvePng ps v).overlayImageName_paused = v.overlayImageName_paused := by
  obtain ⟨oqk, oin, oirun, oipse, pqk, pg, pgrun, pgpse, p64, imn, lin⟩ := v
  cases pqk <;> cases pgrun <;> cases pgpse <;> simp [resolvePng]

/-- With an unknown play state, the overlay branch strips both conditional
variants and selects neither. -/
theorem resolveOverlay_unknown (ps : PlayStates) (v : FeedbackState) (k : String)
    (hk : v.overlayQueryKey = some k) (hu : getPlayStateFor ps k = "unknown") :
    (resolveOverlay ps v).overlayImageName = v.overlayImageName ∧
    (resolveOverlay ps v).overlayImageName_running = none ∧
    (resolveOverlay ps v).overlayImageName_paused = none := by
  have hr : ¬ ("unknown" : String) = "running" := by decide
  have hp : ¬ ("unknown" : String) = "paused" := by decide
  obtain ⟨oqk, oin, oirun, oipse, pqk, pg, pgrun, pgpse, p64, imn, lin⟩ := v
  cases hk
  cases oirun <;> cases oipse <;> simp [resolveOverlay, hu, hr, hp]

/-- With an unknown play state, the png branch strips both conditional
variants and selects neither. -/
theorem resolvePng_unknown (ps : PlayStates) (v : FeedbackState) (k : String)
    (hk : v.pngQueryKey = some k) (hu : getPlayStateFor ps k = "unknown") :
    (resolvePng ps v).png = v.png ∧
    (resolvePng ps v).png_running = none ∧
    (resolvePng ps v).png_paused = none := by
  have hp : ¬ ("unknown" : String) = "paused" := by decide
  obtain ⟨oqk, oin, oirun, oipse, pqk, pg, pgrun, pgpse, p64, imn, lin⟩ := v
  cases hk
  cases pgrun <;> cases pgpse <;> simp [resolvePng, hu, hp]

/-- C6: when a resolved state's play-state query key has no matching record
in the layer play-state mapping, or a record without a `playState` field,
the play state is treated as `"unknown"` and the state-resolution step
removes both conditional variants without selecting either into the
unsuffixed field — for the overlay pair and for the png pair alike. -/
theorem unknown_play_state_strips_conditionals (playStates : PlayStates)
    (value : FeedbackState) :
    (∀ k, value.overlayQueryKey = some k →
      (lookupKV playStates k = none ∨ lookupKV playStates k = some ⟨none⟩) →
      getPlayStateFor playStates k = "unknown" ∧
      (queryFeedbackStateResolve playStates value).overlayImageName =
        value.overlayImageName ∧
      (queryFeedbackStateResolve playStates value).overlayImageName_running = none ∧
      (queryFeedbackStateResolve playStates value).overlayImageName_paused = none) ∧
    (∀ k, value.pngQueryKey = some k →
      (lookupKV playStates k = none ∨ lookupKV playStates k = some ⟨none⟩) →
      getPlayStateFor playStates k = "unknown" ∧
      (queryFeedbackStateResolve playStates value).png = value.png ∧
      (queryFeedbackStateResolve playStates value).png_running = none ∧
      (queryFeedbackStateResolve playStates value).png_paused = none) := by
  constructor
  · intro k hk h
    have hu := getPlayStateFor_unknown playStates k h
    have ho := resolveOverlay_unknown playStates value k hk hu
    have hp := resolvePng_overlay_fields playStates (resolveOverlay playStates value)
    refine ⟨hu, ?_, ?_, ?_⟩
    · rw [queryFeedbackStateResolve, hp.1, ho.1]
    · rw [queryFeedbackStateResolve, hp.2.1, ho.2.1]
    · rw [queryFeedbackStateResolve, hp.2.2, ho.2.2]
  · intro k hk h
    have hu := getPlayStateFor_unknown playStates k h
    have hflds := resolveOverlay_png_fields playStates value
    have hk2 : (resolveOverlay playStates value).pngQueryKey = some k := by
      rw [hflds.1, hk]
    have hpu := resolvePng_unknown playStates (resolveOverlay playStates value) k hk2 hu
    refine ⟨hu, ?_, ?_, ?_⟩
    · rw [queryFeedbackStateResolve, hpu.1, hflds.2.1]
    · rw [queryFeedbackStateResolve, hpu.2.1]
    · rw [queryFeedbackStateResolve, hpu.2.2]

/-- Concrete play-state mapping for the C6 witness: no record for key `Q`,
and a record without a `playState` property for key `R`. -/
def c6Play : PlayStates := [("R", { playState := none })]

/-- Concrete resolved state for the C6 witness, carrying both query keys and
all four conditional variants. -/
def c6Value : FeedbackState :=
  { overlayQueryKey := some "Q", overlayImageName := some "base",
    overlayImageName_running := some "r", overlayImageName_paused := some "p",
    pngQueryKey := some "R", png := some "g",
    png_running := some "rr", png_paused := some "pp" }

/-- Witness for `unknown_play_state_strips_conditionals` at a concrete state,
exercising both the missing-record case and the record-without-playState
case. -/
theorem unknown_play_state_strips_conditionals_witness :
    getPlayStateFor c6Play "Q" = "unknown" ∧
    (queryFeedbackStateResolve c6Play c6Value).overlayImageName =
      c6Value.overlayImageName ∧
    (queryFeedbackStateResolve c6Play c6Value).overlayImageName_running = none ∧
    (queryFeedbackStateResolve c6Play c6Value).overlayImageName_paused = none ∧
    getPlayStateFor c6Play "R" = "unknown" ∧
    (queryFeedbackStateResolve c6Play c6Value).png = c6Value.png ∧
    (queryFeedbackStateResolve c6Play c6Value).png_running = none ∧
    (queryFeedbackStateResolve c6Play c6Value).png_paused = none := by
  have h := unknown_play_state_strips_conditionals c6Play c6Value
  have h1 := h.1 "Q" (by decide) (Or.inl (by decide))
  have h2 := h.2 "R" (by decide) (Or.inr (by decide))
  exact ⟨h1.1, h1.2.1, h1.2.2.1, h1.2.2.2, h2.1, h2.2.1, h2.2.2.1, h2.2.2.2⟩

/-- C5 evidence: a resolved state with a png play-state query key, a
matching record in the running play state, and a `png_running` /
`png_paused` pair.  The claim (and the spec) ask for the running variant to
be selected into `png`; the code's self-assignment
`value.png_running = value.png_running` selects nothing, so `png` stays
absent while both variants are removed. -/
def c5Play : PlayStates := [("L", { playState := some "running" })]

/-- Concrete resolved state for the C5 evidence. -/
def c5Value : FeedbackState :=
  { pngQueryKey := some "L", png_running := some "R", png_paused := some "P" }

/-- C5: evaluation of the state-resolution step at the failing input — play
state `running`, `png_running` present — does not select the running
variant into `png` (the result's `png` is absent, not `some "R"`), while
both suffixed fields are removed.  The overlay pair behaves as claimed; the
png pair does not. -/
theorem png_running_variant_not_selected :
    (queryFeedbackStateResolve c5Play c5Value).png = none ∧
    (queryFeedbackStateResolve c5Play c5Value).png_running = none ∧
    (queryFeedbackStateResolve c5Play c5Value).png_paused = none := by
  decide

/-- C7: when the detail query for a dequeued miss with a well-formed identity
rejects, the rebuild loop issues the query but writes nothing into the cache,
drops the miss without re-enqueuing it, and continues with the remaining
misses against the unchanged cache. -/
theorem rebuild_query_failure_drops_miss (query : QueryFn) (m : Miss)
    (rest : List Miss) (cache : List (String × FeedbackState))
    (pending : List String) (queries : List Query)
    (hlen : (splitChar '~' m.id).length ≥ 2)
    (hq : query ((splitChar '~' m.id).getD 0 "") ((splitChar '~' m.id).getD 1 "")
      m.options = none) :
    rebuildLoop query (m :: rest) cache pending queries =
      rebuildLoop query rest cache (pending.filter (fun k => k ≠ m.id))
        (queries ++
          [((splitChar '~' m.id).getD 0 "", (splitChar '~' m.id).getD 1 "", m.options)]) := by
  simp only [rebuildLoop]
  rw [if_pos hlen, hq]

/-- Concrete always-failing query oracle for the C7 witness. -/
def c7Query : QueryFn := fun _ _ _ => none

/-- Witness for `rebuild_query_failure_drops_miss` at a concrete miss with a
failing query: the cache stays empty and the stale marker is consumed. -/
theorem rebuild_query_failure_drops_miss_witness :
    ((splitChar '~' "a~b").length ≥ 2 ∧
      c7Query ((splitChar '~' "a~b").getD 0 "") ((splitChar '~' "a~b").getD 1 "")
        [] = none) ∧
    rebuildLoop c7Query [⟨"a~b", []⟩] [] ["a~b"] [] =
      rebuildLoop c7Query [] [] (["a~b"].filter (fun k => k ≠ "a~b"))
        ([] ++ [((splitChar '~' "a~b").getD 0 "", (splitChar '~' "a~b").getD 1 "", [])]) :=
  ⟨⟨by decide, rfl⟩,
    rebuild_query_failure_drops_miss c7Query ⟨"a~b", []⟩ [] [] ["a~b"] []
      (by decide) rfl⟩

/-- C10: a dequeued miss whose identity does not split on `~` into at least
two components is removed from the queue and silently discarded — no remote
query is issued for it, no cache entry is written — and the loop continues
with the remaining misses. -/
theorem rebuild_malformed_miss_discarded (query : QueryFn) (m : Miss)
    (rest : List Miss) (cache : List (String × FeedbackState))
    (pending : List String) (queries : List Query)
    (hlen : (splitChar '~' m.id).length < 2) :
    rebuildLoop query (m :: rest) cache pending queries =
      rebuildLoop query rest cache (pending.filter (fun k => k ≠ m.id)) queries := by
  have hn : ¬ (splitChar '~' m.id).length ≥ 2 := by omega
  simp only [rebuildLoop]
  rw [if_neg hn]

/-- Witness for `rebuild_malformed_miss_discarded` at a concrete malformed
miss id with no `~` separator, alongside a well-formed remaining miss. -/
theorem rebuild_malformed_miss_discarded_witness :
    (splitChar '~' "abc").length < 2 ∧
    rebuildLoop c7Query [⟨"abc", []⟩, ⟨"a~b", []⟩] [] ["abc"] [] =
      rebuildLoop c7Query [⟨"a~b", []⟩] [] (["abc"].filter (fun k => k ≠ "abc")) [] :=
  ⟨by decide,
    rebuild_malformed_miss_discarded c7Query ⟨"abc", []⟩ [⟨"a~b", []⟩] [] ["abc"] []
      (by decide)⟩

/-- C8: when a resolved state names an overlay image present in the image set
and carries a base `png64` payload, a failing compositing pipeline leaves the
detail query successful, with the state carrying its original uncomposited
base payload. -/
theorem composite_failure_falls_back (images : List (String × String))
    (composite : CompositeFn) (state : FeedbackState) (nm base layer : String)
    (hov : state.overlayImageName = some nm)
    (hbase : state.png64 = some base)
    (himg : lookupKV images nm = some layer)
    (hc : composite base layer = none) :
    queryFeedbackDetailsProcess images composite state =
      Except.ok { state with layerImageName := none } ∧
    FeedbackState.png64 { state with layerImageName := none } = some base := by
  constructor
  · simp only [queryFeedbackDetailsProcess, hov, himg]
    obtain ⟨oqk, oin, oirun, oipse, pqk, pg, pgrun, pgpse, p64, imn, lin⟩ := state
    cases hbase
    simp [hc]
  · obtain ⟨oqk, oin, oirun, oipse, pqk, pg, pgrun, pgpse, p64, imn, lin⟩ := state
    exact hbase

/-- Concrete image set for the C8 witness. -/
def c8Images : List (String × String) := [("glow1", "OVR")]

/-- Concrete always-failing compositing oracle for the C8 witness. -/
def c8Composite : CompositeFn := fun _ _ => none

/-- Concrete resolved state for the C8 witness: names overlay `glow1` and
carries a base payload. -/
def c8State : FeedbackState :=
  { overlayImageName := some "glow1", png64 := some "BASE" }

/-- Witness for `composite_failure_falls_back` at a concrete state and a
compositing oracle that always fails. -/
theorem composite_failure_falls_back_witness :
    (c8State.overlayImageName = some "glow1" ∧ c8State.png64 = some "BASE" ∧
      lookupKV c8Images "glow1" = some "OVR" ∧ c8Composite "BASE" "OVR" = none) ∧
    (queryFeedbackDetailsProcess c8Images c8Composite c8State =
        Except.ok { c8State with layerImageName := none } ∧
      FeedbackState.png64 { c8State with layerImageName := none } = some "BASE") :=
  ⟨⟨rfl, rfl, by decide, rfl⟩,
    composite_failure_falls_back c8Images c8Composite c8State "glow1" "BASE" "OVR"
      rfl rfl (by decide) rfl⟩

/-- Initial instance state used by the C4 evidence: empty cache, no pending
markers, no misses, no timers. -/
def c4Initial : InstState := {}

/-- Successfully resolved (empty) reply used by the C4 evidence. -/
def c4Reply : FeedbackState := {}

/-- Always-succeeding query oracle used by the C4 evidence. -/
def c4Query : QueryFn := fun _ _ _ => some c4Reply

/-- C4: evaluation of the failing scenario — one feedback evaluation misses
the empty cache and arms the rebuild interval (timer id 0); the following
rebuild pass drains the miss queue with a successful query, yet the interval
timer is still armed afterwards, because `rebuildFeedbackCache` only deletes
the instance property `this.cacheBuilder` (which was never assigned) and
never clears the interval stored in the module-level `cacheBuilder`
variable.  The claim says no further ticks fire once the queue is drained;
the armed timer keeps ticking. -/
theorem rebuild_leaves_tick_timer_armed :
    ((rebuildFeedbackCache c4Query ((feedback c4Initial "a~b" []).2)).1).cacheMisses
        = [] ∧
    ((rebuildFeedbackCache c4Query ((feedback c4Initial "a~b" []).2)).1).timers
        = [0] := by
  decide

/-- The initial connection-lifecycle state satisfies the watchdog invariant. -/
theorem connInv_init : connInv connInit := rfl

/-- Each connection-lifecycle event preserves the watchdog invariant. -/
theorem connInv_step (s : ConnState) (e : ConnEvent) (h : connInv s) :
    connInv (connStep s e) := by
  cases e with
  | sockOpen =>
    cases hw : s.watchdog with
    | none => simpa [connStep, onSocketOpen, connInv, hw] using h
    | some tid =>
      unfold connInv at h
      rw [hw] at h
      simp [connStep, onSocketOpen, connInv, hw, h]
  | sockClose =>
    cases hw : s.watchdog with
    | none =>
      unfold connInv at h
      rw [hw] at h
      simp [connStep, onSocketClose, connInv, hw, h]
    | some tid =>
      simpa [connStep, onSocketClose, connInv, hw] using h

/-- Running any event sequence from an invariant state stays invariant. -/
theorem connInv_run (evs : List ConnEvent) :
    ∀ s, connInv s → connInv (connRun evs s) := by
  induction evs with
  | nil => intro s h; exact h
  | cons e t ih => intro s h; exact ih (connStep s e) (connInv_step s e h)

/-- C9: along every sequence of socket open/close events from the initial
state, at most one reconnect timer is armed at any time — the close handler
arms one only when `connectionWatchdog` is unset, and the open handler
clears the armed one. -/
theorem reconnect_timer_at_most_one (evs : List ConnEvent) :
    ((connRun evs connInit)).timers.length ≤ 1 := by
  have h := connInv_run evs connInit connInv_init
  unfold connInv at h
  cases hw : (connRun evs connInit).watchdog with
  | none => rw [hw] at h; simp [h]
  | some tid => rw [hw] at h; simp [h]

end Titler
